import Mathlib

/-!
Shallow embedding of the wavesurfer.js Gecko plugin (class GeckoPlugin).

The plugin downloads a Gecko JSON transcription document, renders it as an
HTML table inside a host-provided container element, and exposes
click-to-select and time-to-segment lookup.

Modelling conventions:
* JS numbers (segment times) are modelled as exact rationals `ℚ`.
  `Number.prototype.toFixed(1)` is modelled by its ECMAScript definition
  applied to the exact rational value (pick the integer n minimising
  |n / 10 - x|, ties towards the larger n, applied to |x| with the sign
  prepended).
* The DOM subtree built by `render` is modelled structurally
  (`GTable`, `BodyRow`, ...); the container element is modelled by its list
  of child nodes.  `element.innerHTML = ""` and `appendChild` become
  `clearChildren` and `appendChild` on that list.
* Thrown JS exceptions (TypeError / NotFoundError) become `Except.error`
  with a message describing the exception.
* Event-listener registration tracks closure identity: each call of
  `bindClick` creates a fresh closure (a fresh id), `this._onClick` holds
  the id of the most recent one, and `removeEventListener` erases that id.
* `fireEvent` emissions are collected in a returned list of `GEvent`s.
-/

namespace Gecko

/-- One entry of a monologue's "terms" array of the source document. -/
structure Term where
  text : String
deriving DecidableEq, Repr

/-- One "monologue" of the fetched Gecko JSON document. -/
structure Monologue where
  start : ℚ
  «end» : ℚ
  terms : List Term
deriving DecidableEq, Repr

/-- The fetched Gecko JSON document: `{ monologues: [...] }`. -/
structure GeckoDoc where
  monologues : List Monologue
deriving DecidableEq, Repr

/-- One stored annotation, as built in `GeckoPlugin.init` from a monologue:
`{ id: index, start: mono.start, end: mono.end, text: mono.terms[0].text }`.
The spec calls this a Segment. -/
structure Segment where
  id : ℕ
  start : ℚ
  «end» : ℚ
  text : String
deriving DecidableEq, Repr

/-- Model of JavaScript `x.toFixed(1)` on the exact rational value `x`:
per ECMAScript, for nonnegative x the shown integer is the n minimising
|n / 10 - x| with ties towards the larger n, i.e. n = floor(10 * x + 1/2);
a negative x is formatted as "-" followed by the format of -x.
With num = x.num.natAbs and den = x.den we have
floor(10 * |x| + 1/2) = (20 * num + den) / (2 * den) in ℕ division. -/
def toFixed1 (x : ℚ) : String :=
  let sign := if x < 0 then "-" else ""
  let n : ℕ := (20 * x.num.natAbs + x.den) / (2 * x.den)
  sign ++ toString (n / 10) ++ "." ++ toString (n % 10)

/-- A header cell (`<th>`) of the rendered table. -/
structure HeaderCell where
  className : String
  textContent : String
deriving DecidableEq, Repr

/-- The time cell (`<td class="wavesurfer-time">`) of a body row. -/
structure TimeCell where
  className : String
  textContent : String
deriving DecidableEq, Repr

/-- The text cell (`<td>`) of a body row, carrying the segment id as both
an element id and dataset entries.  In the DOM `dataset.start` and
`dataset.end` are stringified numbers; they are kept as exact rationals
here (the code never reads them back). -/
structure TextCell where
  id : String
  datasetRef : String
  datasetStart : ℚ
  datasetEnd : ℚ
  textContent : String
  className : String
deriving DecidableEq, Repr

/-- A body row (`<tr>`) of the rendered table. -/
structure BodyRow where
  id : String
  timeCell : TimeCell
  textCell : TextCell
deriving DecidableEq, Repr

/-- The rendered `<table class="wavesurfer-annotations">`: a `<thead>` with
one row of header cells and a `<tbody>` with one row per annotation. -/
structure GTable where
  className : String
  headerCells : List HeaderCell
  bodyRows : List BodyRow
deriving DecidableEq, Repr

/-- A child node of the container element: either the rendered table or
arbitrary pre-existing content. -/
inductive DomNode where
  | table (t : GTable)
  | other (descr : String)
deriving DecidableEq, Repr

/-- Model of `container.innerHTML = ""`. -/
def clearChildren (_children : List DomNode) : List DomNode := []

/-- Model of `container.appendChild(n)`. -/
def appendChild (children : List DomNode) (n : DomNode) : List DomNode :=
  children ++ [n]

/-- The `this.data` record set up in `init`:
`{ media: {}, annotations: [...] }`. -/
structure GeckoData where
  media : Unit
  annotations : List Segment
deriving DecidableEq, Repr

/-- Events emitted through `fireEvent`: `"ready"` with the data snapshot,
and `"select"` with a (start, end) pair. -/
inductive GEvent where
  | ready (data : GeckoData)
  | select (s e : ℚ)
deriving DecidableEq, Repr

/-- The `container` construction parameter: a CSS selector string or a
direct element reference (which may be null/undefined, modelled `none`).
An element is identified with its current list of child nodes. -/
inductive ContainerParam where
  | selector (s : String)
  | element (e : Option (List DomNode))
deriving DecidableEq, Repr

/-- Construction parameters (GeckoPluginParams). -/
structure GeckoParams where
  container : ContainerParam
  url : Option String
  deferInit : Bool
deriving DecidableEq, Repr

/-- The mutable instance state of a GeckoPlugin object.
`table` is `this.table` (undefined before the first `render`),
`listeners` the click listeners registered on the container (by closure
id, in registration order), `onClickId` the closure id held in
`this._onClick` (undefined before the first `bindClick`), and
`nextClosureId` a supply of fresh closure ids. -/
structure GeckoState where
  data : Option GeckoData
  params : GeckoParams
  container : List DomNode
  table : Option GTable
  listeners : List ℕ
  onClickId : Option ℕ
  nextClosureId : ℕ
deriving DecidableEq, Repr

/-- Translation of the constructor: resolve the container (via
`document.querySelector` for a selector string, modelled by `resolve`),
throw `Error("No container for Gecko")` if it is null/undefined, otherwise
start with `this.data = null` and nothing rendered or bound. -/
def construct (resolve : String → Option (List DomNode)) (params : GeckoParams) :
    Except String GeckoState :=
  let c := match params.container with
    | ContainerParam.selector s => resolve s
    | ContainerParam.element e => e
  match c with
  | none => Except.error "No container for Gecko"
  | some children =>
      Except.ok
        { data := none
          params := params
          container := children
          table := none
          listeners := []
          onClickId := none
          nextClosureId := 0 }

/-- Result of the synchronous part of `init`: the updated state, whether a
fetch was issued, and the events fired synchronously (none). -/
structure InitOutcome where
  state : GeckoState
  fetchIssued : Bool
  events : List GEvent
deriving Repr

/-- Translation of the synchronous part of `init`: set
`this.data = { media: {}, annotations: [] }` and issue a fetch exactly when
`this.params.url` is truthy (present and nonempty).  Rendering, click
binding and the "ready" event happen only in the fetch continuation
`onFetchSuccess`. -/
def init (st : GeckoState) : InitOutcome :=
  { state := { st with data := some { media := (), annotations := [] } }
    fetchIssued := match st.params.url with
      | some u => !u.isEmpty
      | none => false
    events := [] }

/-- Helper for the monologue-to-annotation map of `init`, carrying the
running array index: monologue k maps to
`{ id: k, start: mono.start, end: mono.end, text: mono.terms[0].text }`;
accessing `terms[0].text` of an empty terms array throws (gives `none`). -/
def initAnnotationsAux (k : ℕ) : List Monologue → Option (List Segment)
  | [] => some []
  | m :: ms =>
      match m.terms with
      | [] => none
      | t :: _ =>
          (initAnnotationsAux (k + 1) ms).map fun rest =>
            { id := k, start := m.start, «end» := m.«end», text := t.text } :: rest

/-- The monologue-to-annotation map of `init` (the `_map.call(monologues, ...)`
over the fetched document), starting at index 0. -/
def initAnnotations (ms : List Monologue) : Option (List Segment) :=
  initAnnotationsAux 0 ms

/-- Translation of `render`'s table construction: header row with the
"Time" and "Text" cells, then one body row per annotation with the
formatted time range and the annotation text. -/
def renderTable (annotations : List Segment) : GTable :=
  { className := "wavesurfer-annotations"
    headerCells :=
      [ { className := "wavesurfer-time", textContent := "Time" }
      , { className := "wavesurfer-tier-", textContent := "Text" } ]
    bodyRows := annotations.map fun a =>
      { id := "wavesurfer-annotation-" ++ toString a.id
        timeCell :=
          { className := "wavesurfer-time"
            textContent := toFixed1 a.start ++ "â€“" ++ toFixed1 a.«end» }
        textCell :=
          { id := "wavesurfer-text-" ++ toString a.id
            datasetRef := toString a.id
            datasetStart := a.start
            datasetEnd := a.«end»
            textContent := a.text
            className := "wavesurfer-tier-" } } }

/-- Translation of `render`: build the table, store it in `this.table`,
then `this.container.innerHTML = ""` and `this.container.appendChild(table)`. -/
def render (st : GeckoState) (annotations : List Segment) : GeckoState :=
  let tbl := renderTable annotations
  { st with
      table := some tbl
      container := appendChild (clearChildren st.container) (DomNode.table tbl) }

/-- Model of `addEventListener`: registers the listener unless that same
function object is already registered. -/
def addListener (ls : List ℕ) (i : ℕ) : List ℕ :=
  if i ∈ ls then ls else ls ++ [i]

/-- Translation of `bindClick`: create a fresh closure, store it in
`this._onClick` and register it on the container. -/
def bindClick (st : GeckoState) : GeckoState :=
  { st with
      onClickId := some st.nextClosureId
      listeners := addListener st.listeners st.nextClosureId
      nextClosureId := st.nextClosureId + 1 }

/-- Translation of the fetch continuation inside `init` (runs once the
fetched document has been parsed as JSON): map the monologues to
annotations (throws on a monologue with no terms), render, store the
annotations in `this.data`, bind the click handler, and fire "ready" with
`this.data`. -/
def onFetchSuccess (st : GeckoState) (jsondata : GeckoDoc) :
    Except String (GeckoState × List GEvent) :=
  match initAnnotations jsondata.monologues with
  | none => Except.error "TypeError: cannot read text of mono.terms[0] (undefined)"
  | some annos =>
      let st1 := render st annos
      match st1.data with
      | none => Except.error "TypeError: cannot set annotations of null"
      | some d =>
          let newData : GeckoData := { d with annotations := annos }
          let st2 := bindClick { st1 with data := some newData }
          Except.ok (st2, [GEvent.ready newData])

/-- Translation of `destroy`: `removeEventListener("click", this._onClick)`
(a no-op when `this._onClick` is undefined or not registered), then
`this.container.removeChild(this.table)`, which throws a TypeError when
`this.table` is undefined and a NotFoundError when the table is not a
child of the container. -/
def destroy (st : GeckoState) : Except String GeckoState :=
  let st1 := match st.onClickId with
    | none => st
    | some i => { st with listeners := st.listeners.erase i }
  match st1.table with
  | none =>
      Except.error "TypeError: removeChild parameter 1 is not of type Node"
  | some tbl =>
      if DomNode.table tbl ∈ st1.container then
        Except.ok { st1 with container := st1.container.erase (DomNode.table tbl) }
      else
        Except.error "NotFoundError: the node to be removed is not a child"

/-- Value of a hexadecimal digit character, `none` for other characters. -/
def hexDigitVal (c : Char) : Option ℕ :=
  if '0' ≤ c ∧ c ≤ '9' then some (c.toNat - '0'.toNat)
  else if 'a' ≤ c ∧ c ≤ 'f' then some (c.toNat - 'a'.toNat + 10)
  else if 'A' ≤ c ∧ c ≤ 'F' then some (c.toNat - 'A'.toNat + 10)
  else none

/-- Model of JavaScript `parseInt(s)` (radix argument omitted): trim
leading whitespace, read an optional sign, switch to radix 16 after a
"0x"/"0X" prefix (radix 10 otherwise), then read the longest prefix of
digits valid in the radix; NaN (`none`) when that prefix is empty. -/
def parseIntJS (s : String) : Option ℤ :=
  let cs := s.toList.dropWhile fun c => c.isWhitespace
  let signed : Bool × List Char := match cs with
    | '-' :: rest => (true, rest)
    | '+' :: rest => (false, rest)
    | _ => (false, cs)
  let based : ℕ × List Char := match signed.2 with
    | '0' :: 'x' :: rest => (16, rest)
    | '0' :: 'X' :: rest => (16, rest)
    | _ => (10, signed.2)
  let digits := based.2.takeWhile fun c => (hexDigitVal c).any fun v => v < based.1
  if digits.isEmpty then none
  else
    let n : ℕ := digits.foldl (fun acc c => acc * based.1 + (hexDigitVal c).getD 0) 0
    some (if signed.1 then -(n : ℤ) else (n : ℤ))

/-- Body of the click-handler closure installed by `bindClick`, as a
function of the stored annotation list and of the clicked target's
`dataset.ref` (absent markers, including `undefined`, are `none`): when
the marker is present, `parseInt` it and look the index up in
`this.data.annotations`; fire "select" with the found annotation's
(start, end) exactly when the lookup hits (a negative or NaN index misses). -/
def clickFire (annotations : List Segment) (ref : Option String) : Option GEvent :=
  match ref with
  | none => none
  | some s =>
      match parseIntJS s with
      | none => none
      | some i =>
          if i < 0 then none
          else
            match annotations[i.toNat]? with
            | some a => some (GEvent.select a.start a.«end»)
            | none => none

/-- Delivery of a click event on the container to every registered click
listener (each registered closure has the body `clickFire`, reading the
live `this.data.annotations`); with no listener registered nothing runs. -/
def dispatchClick (st : GeckoState) (ref : Option String) :
    Except String (List GEvent) :=
  if st.listeners.isEmpty then Except.ok []
  else
    match st.data with
    | none => Except.error "TypeError: cannot read annotations of null"
    | some d =>
        Except.ok (st.listeners.flatMap fun _ => (clickFire d.annotations ref).toList)

/-- The containment test of `getRenderedAnnotation`:
`annotation.start <= time && annotation.end >= time`. -/
def annoContains (a : Segment) (time : ℚ) : Bool :=
  decide (a.start ≤ time) && decide (a.«end» ≥ time)

/-- The scan inside `getRenderedAnnotation`: `annotations.some(...)` with a
captured `result` assigns the first annotation whose interval contains the
time, i.e. a first-match linear scan. -/
def findAnno (annotations : List Segment) (time : ℚ) : Option Segment :=
  annotations.find? fun a => annoContains a time

/-- Translation of the method `getRenderedAnnotation`: reads
`this.data.annotations` (a TypeError when `this.data` is still null) and
returns the first annotation containing the time, if any. -/
def getRenderedAnno (st : GeckoState) (time : ℚ) :
    Except String (Option Segment) :=
  match st.data with
  | none => Except.error "TypeError: cannot read annotations of null"
  | some d => Except.ok (findAnno d.annotations time)

/-- The rational 5/4 = 1.25, the segment boundary of the spec's example. -/
def q54 : ℚ := Rat.mk' 5 4 (by decide) (by decide)

/-- The spec's example source document:
`{monologues:[{start:0,end:1.25,terms:[{text:"hi"}]},{start:1.25,end:3,terms:[{text:"bye"}]}]}`. -/
def exampleDoc : GeckoDoc :=
  { monologues :=
      [ { start := 0, «end» := q54, terms := [{ text := "hi" }] }
      , { start := q54, «end» := 3, terms := [{ text := "bye" }] } ] }

/-- The two segments the loader builds from `exampleDoc`. -/
def exampleSegs : List Segment :=
  [ { id := 0, start := 0, «end» := q54, text := "hi" }
  , { id := 1, start := q54, «end» := 3, text := "bye" } ]

/-- Construction parameters of the example: a directly passed empty
container element and the demo transcript URL. -/
def exampleParams : GeckoParams :=
  { container := ContainerParam.element (some [])
    url := some "transcripts/OGVC_dlg.json"
    deferInit := false }

/-- The plugin state in the *ready* lifecycle stage for the example
document: data loaded, table rendered into the container, one click
listener bound. -/
def exampleReadyState : GeckoState :=
  { data := some { media := (), annotations := exampleSegs }
    params := exampleParams
    container := [DomNode.table (renderTable exampleSegs)]
    table := some (renderTable exampleSegs)
    listeners := [0]
    onClickId := some 0
    nextClosureId := 1 }

/-- The example state after `destroy`: listener removed and table removed
from the container (`this.table` and `this._onClick` keep their stale
values). -/
def exampleDestroyedState : GeckoState :=
  { exampleReadyState with listeners := [], container := [] }

/-- Sanity check: the ready-stage example state is exactly what the
construct → init → fetch-continuation pipeline produces on the example
document, together with a single "ready" event carrying the data
snapshot. -/
lemma exampleReadyState_reachable :
    ∃ st0, construct (fun _ => none) exampleParams = Except.ok st0 ∧
      (init st0).fetchIssued = true ∧
      onFetchSuccess (init st0).state exampleDoc =
        Except.ok (exampleReadyState,
          [GEvent.ready { media := (), annotations := exampleSegs }]) := by
  refine ⟨_, rfl, rfl, ?_⟩
  rfl

/-- Helper: full characterization of the first-match linear scan,
restated from the core `List.find?_eq_some` lemma in split-list form. -/
lemma find?_eq_some_parts {α : Type} (p : α → Bool) (l : List α) (a : α) :
    l.find? p = some a ↔
      ∃ l₁ l₂, l = l₁ ++ a :: l₂ ∧ p a = true ∧ ∀ b ∈ l₁, p b = false := by
  rw [List.find?_eq_some]
  constructor
  · rintro ⟨hpa, l₁, l₂, rfl, hall⟩
    exact ⟨l₁, l₂, rfl, hpa, fun b hb => by simpa using hall b hb⟩
  · rintro ⟨l₁, l₂, rfl, hpa, hall⟩
    exact ⟨hpa, l₁, l₂, rfl, fun b hb => by simpa using hall b hb⟩

/-- Claim C1: for every time t and stored annotation list,
`getRenderedAnnotation(t)` returns the first annotation in list order whose
interval contains t inclusively (start ≤ t and t ≤ end), and returns none
when no annotation's interval contains t; in particular, on the two-segment
example with boundaries at 1.25, `getRenderedAnnotation(1.25)` returns the
segment with id 0. -/
theorem c1_getRendered_first_match :
    (∀ (annos : List Segment) (t : ℚ) (a : Segment),
        findAnno annos t = some a ↔
          ∃ l₁ l₂, annos = l₁ ++ a :: l₂ ∧ annoContains a t = true ∧
            ∀ b ∈ l₁, annoContains b t = false)
    ∧ (∀ (annos : List Segment) (t : ℚ),
        findAnno annos t = none ↔ ∀ b ∈ annos, annoContains b t = false)
    ∧ (∀ (a : Segment) (t : ℚ),
        annoContains a t = true ↔ (a.start ≤ t ∧ t ≤ a.«end»))
    ∧ getRenderedAnno exampleReadyState q54 =
        Except.ok (some { id := 0, start := 0, «end» := q54, text := "hi" }) := by
  refine ⟨?_, ?_, ?_, ?_⟩
  · intro annos t a
    exact find?_eq_some_parts _ annos a
  · intro annos t
    simp [findAnno, List.find?_eq_none]
  · intro a t
    simp [annoContains, ge_iff_le]
  · rfl

/-- Claim C8: rendering a segment list destroys and replaces all prior
container content, so that afterwards the container holds exactly the newly
built table, and rendering the same list twice leaves the same state as
rendering it once. -/
theorem c8_render_replaces :
    ∀ (st : GeckoState) (annos : List Segment),
      (render st annos).container = [DomNode.table (renderTable annos)] ∧
      render (render st annos) annos = render st annos := by
  intro st annos
  exact ⟨rfl, rfl⟩

/-- Claim C5: for every construction parameter set whose container selector
or element does not resolve to an element, construction fails synchronously
with the `No container for Gecko` error, producing no state (so nothing is
rendered and no other side effect occurs). -/
theorem c5_construct_fails :
    ∀ (resolve : String → Option (List DomNode)) (params : GeckoParams),
      ((∃ s, params.container = ContainerParam.selector s ∧ resolve s = none) ∨
        params.container = ContainerParam.element none) →
      construct resolve params = Except.error "No container for Gecko" := by
  intro resolve params h
  rcases h with ⟨s, hs, hr⟩ | h
  · simp [construct, hs, hr]
  · simp [construct, h]

/-- Witness for C5 at a concrete unresolvable parameter set. -/
theorem c5_construct_fails_witness :
    construct (fun _ => none)
        { container := ContainerParam.element none, url := none, deferInit := false } =
      Except.error "No container for Gecko" :=
  c5_construct_fails (fun _ => none)
    { container := ContainerParam.element none, url := none, deferInit := false }
    (Or.inr rfl)

/-- Claim C7: if the url construction parameter is absent, the
initialization step loads no data: no fetch is issued, no event is emitted,
and the container, table and click listeners are untouched; only
`this.data` is reset to an empty-annotations record. -/
theorem c7_init_no_url :
    ∀ (st : GeckoState), st.params.url = none →
      (init st).fetchIssued = false ∧
      (init st).events = [] ∧
      (init st).state.container = st.container ∧
      (init st).state.table = st.table ∧
      (init st).state.listeners = st.listeners ∧
      (init st).state.onClickId = st.onClickId ∧
      (init st).state.data = some { media := (), annotations := [] } := by
  intro st h
  refine ⟨?_, rfl, rfl, rfl, rfl, rfl, rfl⟩
  simp [init, h]

/-- A freshly constructed plugin state whose params carry no url. -/
def exampleNoUrlState : GeckoState :=
  { data := none
    params := { container := ContainerParam.element (some []), url := none, deferInit := false }
    container := []
    table := none
    listeners := []
    onClickId := none
    nextClosureId := 0 }

/-- Witness for C7 at a concrete url-less state. -/
theorem c7_init_no_url_witness :
    (init exampleNoUrlState).fetchIssued = false ∧
    (init exampleNoUrlState).events = [] ∧
    (init exampleNoUrlState).state.container = exampleNoUrlState.container ∧
    (init exampleNoUrlState).state.table = exampleNoUrlState.table ∧
    (init exampleNoUrlState).state.listeners = exampleNoUrlState.listeners ∧
    (init exampleNoUrlState).state.onClickId = exampleNoUrlState.onClickId ∧
    (init exampleNoUrlState).state.data = some { media := (), annotations := [] } :=
  c7_init_no_url exampleNoUrlState rfl

/-- Helper: full index-wise description of the monologue-to-annotation map
with running index k. -/
lemma initAnnotationsAux_spec :
    ∀ (k : ℕ) (ms : List Monologue) (annos : List Segment),
      initAnnotationsAux k ms = some annos →
      annos.length = ms.length ∧
      ∀ i (hm : i < ms.length) (ha : i < annos.length),
        (annos.get ⟨i, ha⟩).id = k + i ∧
        (annos.get ⟨i, ha⟩).start = (ms.get ⟨i, hm⟩).start ∧
        (annos.get ⟨i, ha⟩).«end» = (ms.get ⟨i, hm⟩).«end» ∧
        ∃ t ts, (ms.get ⟨i, hm⟩).terms = t :: ts ∧
          (annos.get ⟨i, ha⟩).text = t.text := by
  intro k ms
  induction ms generalizing k with
  | nil =>
      intro annos h
      simp only [initAnnotationsAux, Option.some.injEq] at h
      subst h
      refine ⟨rfl, ?_⟩
      intro i hm
      exact absurd hm (by simp)
  | cons m ms ih =>
      intro annos h
      simp only [initAnnotationsAux] at h
      cases hterms : m.terms with
      | nil => rw [hterms] at h; exact absurd h (by simp)
      | cons t ts =>
          rw [hterms] at h
          rcases Option.map_eq_some'.mp h with ⟨rest, hrest, hannos⟩
          subst hannos
          obtain ⟨hlen, hidx⟩ := ih (k + 1) rest hrest
          refine ⟨by simpa using hlen, ?_⟩
          intro i hm ha
          cases i with
          | zero =>
              refine ⟨by simp, rfl, rfl, t, ts, ?_, rfl⟩
              simpa using hterms
          | succ n =>
              have hm' : n < ms.length := by simpa using hm
              have ha' : n < rest.length := by simpa using ha
              obtain ⟨h1, h2, h3, t', ts', h4, h5⟩ := hidx n hm' ha'
              refine ⟨?_, ?_, ?_, t', ts', ?_, ?_⟩
              · simpa [Nat.add_assoc, Nat.add_comm, Nat.add_left_comm] using h1
              · simpa using h2
              · simpa using h3
              · simpa using h4
              · simpa using h5

/-- Helper: dropping all terms after the first changes nothing in the
monologue-to-annotation map. -/
lemma initAnnotationsAux_take_one :
    ∀ (k : ℕ) (ms : List Monologue),
      initAnnotationsAux k (ms.map fun m => { m with terms := m.terms.take 1 }) =
        initAnnotationsAux k ms := by
  intro k ms
  induction ms generalizing k with
  | nil => rfl
  | cons m ms ih =>
      cases hterms : m.terms with
      | nil => simp [initAnnotationsAux, hterms]
      | cons t ts => simp [initAnnotationsAux, hterms, ih]

/-- Claim C4: the loader maps every monologue of the fetched document, in
order, to a Segment whose id equals its position in the list, whose start
and end are the monologue's start and end, and whose text is the first
term's text; all terms after the first are discarded (truncating every
terms list to its first element gives the same segments). -/
theorem c4_loader :
    ∀ (ms : List Monologue) (annos : List Segment),
      initAnnotations ms = some annos →
      annos.length = ms.length ∧
      (∀ i (hm : i < ms.length) (ha : i < annos.length),
        (annos.get ⟨i, ha⟩).id = i ∧
        (annos.get ⟨i, ha⟩).start = (ms.get ⟨i, hm⟩).start ∧
        (annos.get ⟨i, ha⟩).«end» = (ms.get ⟨i, hm⟩).«end» ∧
        ∃ t ts, (ms.get ⟨i, hm⟩).terms = t :: ts ∧
          (annos.get ⟨i, ha⟩).text = t.text) ∧
      initAnnotations (ms.map fun m => { m with terms := m.terms.take 1 }) =
        some annos := by
  intro ms annos h
  obtain ⟨hlen, hidx⟩ := initAnnotationsAux_spec 0 ms annos h
  refine ⟨hlen, ?_, ?_⟩
  · intro i hm ha
    obtain ⟨h1, h2, h3, t, ts, h4, h5⟩ := hidx i hm ha
    exact ⟨by simpa using h1, h2, h3, t, ts, h4, h5⟩
  · rw [initAnnotations, initAnnotationsAux_take_one]
    exact h

/-- Witness for C4 on the spec's example document. -/
theorem c4_loader_witness :
    exampleSegs.length = exampleDoc.monologues.length ∧
    (∀ i (hm : i < exampleDoc.monologues.length) (ha : i < exampleSegs.length),
      (exampleSegs.get ⟨i, ha⟩).id = i ∧
      (exampleSegs.get ⟨i, ha⟩).start = (exampleDoc.monologues.get ⟨i, hm⟩).start ∧
      (exampleSegs.get ⟨i, ha⟩).«end» = (exampleDoc.monologues.get ⟨i, hm⟩).«end» ∧
      ∃ t ts, (exampleDoc.monologues.get ⟨i, hm⟩).terms = t :: ts ∧
        (exampleSegs.get ⟨i, ha⟩).text = t.text) ∧
    initAnnotations (exampleDoc.monologues.map fun m => { m with terms := m.terms.take 1 }) =
      some exampleSegs :=
  c4_loader exampleDoc.monologues exampleSegs (by decide)

/-- Claim C2 (evaluation at the failing input): on the spec's example
document the loader yields the two example segments; the rendered table
has the "Time"/"Text" header row, one body row per monologue showing the
first term's text, and time cells formatted with `toFixed(1)` — but the
separator between the two formatted times is the literal character
sequence "â€“" (U+00E2 U+20AC U+201C, the UTF-8 bytes of an en-dash
mis-decoded as CP1252), not an en-dash (U+2013): the first time cell reads
"0.0â€“1.3", which differs from the spec's "0.0–1.3". -/
theorem c2_render_example_mojibake :
    initAnnotations exampleDoc.monologues = some exampleSegs ∧
    (renderTable exampleSegs).headerCells =
      [ { className := "wavesurfer-time", textContent := "Time" }
      , { className := "wavesurfer-tier-", textContent := "Text" } ] ∧
    (renderTable exampleSegs).bodyRows.length = exampleDoc.monologues.length ∧
    ((renderTable exampleSegs).bodyRows.map fun r => r.timeCell.textContent) =
      ["0.0â€“1.3", "1.3â€“3.0"] ∧
    ((renderTable exampleSegs).bodyRows.map fun r => r.textCell.textContent) =
      ["hi", "bye"] ∧
    "0.0â€“1.3" ≠ "0.0–1.3" := by
  refine ⟨by decide, by decide, by decide, by decide, by decide, by decide⟩

/-- Claim C3: a click whose target carries a segment-id marker that
resolves (through `parseInt` and array lookup) to a stored annotation
fires "select" with exactly that annotation's (start, end); otherwise no
event fires.  The handler reads state but never writes it. -/
theorem c3_click_select :
    ∀ (annos : List Segment) (ref : Option String) (ev : GEvent),
      clickFire annos ref = some ev ↔
        ∃ s i a, ref = some s ∧ parseIntJS s = some i ∧ 0 ≤ i ∧
          annos[i.toNat]? = some a ∧ ev = GEvent.select a.start a.«end» := by
  intro annos ref ev
  cases ref with
  | none => simp [clickFire]
  | some s =>
      cases hp : parseIntJS s with
      | none => simp [clickFire, hp]
      | some i =>
          by_cases hneg : i < 0
          · simp only [clickFire, hp, hneg, if_true]
            constructor
            · intro h; exact absurd h (by simp)
            · rintro ⟨s', i', a, hs, hp', hi', _, _⟩
              cases hs
              rw [hp] at hp'
              cases hp'
              omega
          · cases hg : annos[i.toNat]? with
            | none =>
                simp only [clickFire, hp, hneg, if_false, hg]
                constructor
                · intro h; exact absurd h (by simp)
                · rintro ⟨s', i', a, hs, hp', hi', hg', _⟩
                  cases hs
                  rw [hp] at hp'
                  cases hp'
                  rw [hg] at hg'
                  cases hg'
            | some a =>
                simp only [clickFire, hp, hneg, if_false, hg, Option.some.injEq]
                constructor
                · intro h
                  exact ⟨s, i, a, rfl, hp, by omega, hg, h.symm⟩
                · rintro ⟨s', i', a', hs, hp', hi', hg', hev⟩
                  cases hs
                  rw [hp] at hp'
                  cases hp'
                  rw [hg] at hg'
                  cases hg'
                  exact hev.symm

/-- Claim C6: after a successful `destroy` from a state whose registered
click listeners are exactly the currently stored handler (the states the
linear construct–init–ready lifecycle produces), the click listener is
removed, the table node is removed from the container, and a click on any
target — including stale DOM nodes still carrying segment-id markers —
emits no event at all. -/
theorem c6_teardown :
    ∀ (st st' : GeckoState),
      (st.listeners = [] ∨ ∃ i, st.listeners = [i] ∧ st.onClickId = some i) →
      destroy st = Except.ok st' →
      st'.listeners = [] ∧
      (∀ ref, dispatchClick st' ref = Except.ok []) ∧
      ∃ tbl, st.table = some tbl ∧
        st'.container = st.container.erase (DomNode.table tbl) := by
  rintro ⟨d, pr, cont, tblo, ls, onk, nid⟩ st' hl hd
  cases onk with
  | none =>
      have hls : ls = [] := by
        rcases hl with h | ⟨i, hi, hoi⟩
        · exact h
        · exact absurd hoi (by simp)
      subst hls
      cases tblo with
      | none => simp [destroy] at hd
      | some tbl =>
          simp only [destroy] at hd
          by_cases hmem : DomNode.table tbl ∈ cont
          · rw [if_pos hmem] at hd
            cases hd
            exact ⟨rfl, fun ref => rfl, tbl, rfl, rfl⟩
          · rw [if_neg hmem] at hd
            exact absurd hd (by simp)
  | some i =>
      have hls : ls.erase i = [] := by
        rcases hl with h | ⟨j, hj, hoj⟩
        · subst h; rfl
        · simp only at hoj
          cases hoj
          subst hj
          exact List.erase_cons_head i []
      cases tblo with
      | none => simp [destroy] at hd
      | some tbl =>
          simp only [destroy] at hd
          by_cases hmem : DomNode.table tbl ∈ cont
          · rw [if_pos hmem] at hd
            cases hd
            refine ⟨hls, fun ref => ?_, tbl, rfl, rfl⟩
            simp [dispatchClick, hls]
          · rw [if_neg hmem] at hd
            exact absurd hd (by simp)

/-- Witness for C6: destroying the concrete ready-stage example state. -/
theorem c6_teardown_witness :
    exampleDestroyedState.listeners = [] ∧
    (∀ ref, dispatchClick exampleDestroyedState ref = Except.ok []) ∧
    ∃ tbl, exampleReadyState.table = some tbl ∧
      exampleDestroyedState.container =
        exampleReadyState.container.erase (DomNode.table tbl) :=
  c6_teardown exampleReadyState exampleDestroyedState (Or.inr ⟨0, rfl, rfl⟩) (by rfl)

/-- Claim C9: `destroy` has the unstated precondition that a render has
completed: from any successfully constructed state — and still after an
`init` that issued no render (e.g. no url) — `this.table` is undefined and
`removeChild(this.table)` throws a TypeError, rather than `destroy` being
a no-op. -/
theorem c9_destroy_before_render :
    ∀ (resolve : String → Option (List DomNode)) (params : GeckoParams)
      (st : GeckoState),
      construct resolve params = Except.ok st →
      destroy st =
        Except.error "TypeError: removeChild parameter 1 is not of type Node" ∧
      destroy (init st).state =
        Except.error "TypeError: removeChild parameter 1 is not of type Node" := by
  intro resolve params st h
  revert h
  unfold construct
  cases hc : (match params.container with
      | ContainerParam.selector s => resolve s
      | ContainerParam.element e => e) with
  | none => intro h; exact absurd h (by simp)
  | some children =>
      intro h
      simp only [Except.ok.injEq] at h
      subst h
      exact ⟨rfl, rfl⟩

/-- Witness for C9 at a concrete constructed state. -/
theorem c9_destroy_before_render_witness :
    destroy exampleNoUrlState =
      Except.error "TypeError: removeChild parameter 1 is not of type Node" ∧
    destroy (init exampleNoUrlState).state =
      Except.error "TypeError: removeChild parameter 1 is not of type Node" :=
  c9_destroy_before_render (fun _ => none) exampleNoUrlState.params
    exampleNoUrlState rfl

/-- Claim C10: `getRenderedAnnotation` has the unstated precondition that
`init` has run: on every freshly constructed state the internal data field
is still null and the call fails with a TypeError for every time t; after
an `init` with no url the annotation list is initialized empty, so the
call returns none (`Except.ok none`) for every t instead of failing. -/
theorem c10_getRendered_pre :
    ∀ (resolve : String → Option (List DomNode)) (params : GeckoParams)
      (st : GeckoState),
      construct resolve params = Except.ok st →
      (∀ t : ℚ, getRenderedAnno st t =
        Except.error "TypeError: cannot read annotations of null") ∧
      (params.url = none →
        ∀ t : ℚ, getRenderedAnno (init st).state t = Except.ok none) := by
  intro resolve params st h
  revert h
  unfold construct
  cases hc : (match params.container with
      | ContainerParam.selector s => resolve s
      | ContainerParam.element e => e) with
  | none => intro h; exact absurd h (by simp)
  | some children =>
      intro h
      simp only [Except.ok.injEq] at h
      subst h
      exact ⟨fun t => rfl, fun _ t => rfl⟩

/-- Witness for C10 at a concrete constructed state with no url. -/
theorem c10_getRendered_pre_witness :
    (∀ t : ℚ, getRenderedAnno exampleNoUrlState t =
      Except.error "TypeError: cannot read annotations of null") ∧
    (∀ t : ℚ, getRenderedAnno (init exampleNoUrlState).state t = Except.ok none) :=
  ⟨(c10_getRendered_pre (fun _ => none) exampleNoUrlState.params
      exampleNoUrlState rfl).1,
   (c10_getRendered_pre (fun _ => none) exampleNoUrlState.params
      exampleNoUrlState rfl).2 rfl⟩

end Gecko
